import Mathlib

/-!
Shallow embedding of the `webtest` repository: a Leptos counter application
(`src/lib.rs`) and a small Yew landing page (`src/components/landing.rs`).

The counter state is a Rust `i32` held in a Leptos signal.  We embed `i32`
values as integers in the range `[-2^31, 2^31 - 1]`; the arithmetic in the
event handlers (`+=`, `-=`, `*=`) is the host's native two's-complement
wrapping arithmetic (release-mode Rust / wasm), embedded by `wrap32`.
`/=` is Rust `i32` division, which truncates toward zero (`Int.div`).
-/

namespace Webtest

/-- Smallest `i32` value, `i32::MIN`. -/
def i32Min : Int := -2147483648

/-- Largest `i32` value, `i32::MAX`. -/
def i32Max : Int := 2147483647

/-- Two's-complement reduction of an integer into the `i32` range, the result
of Rust's wrapping 32-bit signed arithmetic. -/
def wrap32 (x : Int) : Int := (x + 2147483648) % 4294967296 - 2147483648

/-- Browser mouse event delivered to a click handler (`leptos::ev::MouseEvent`).
Only its presence matters to the counter code, which ignores its contents; we
record a few representative fields. -/
structure MouseEvent where
  clientX : Int
  clientY : Int
  button : Nat

/-- A concrete mouse event used when running handler sequences on closed inputs. -/
def testEvent : MouseEvent := ⟨0, 0, 0⟩

/-- A second concrete mouse event, distinct from `testEvent`. -/
def otherEvent : MouseEvent := ⟨17, -4, 2⟩

/-! ### Theme constants (lib.rs, `mod theme`) -/

namespace theme

/-- Dark grey used for backgrounds and contrast. -/
def DARK_GREY : String := "#232323"

/-- Deep red, the primary brand color. -/
def EVIL_RED : String := "#8b0000"

/-- Bright red, used for highlights and accents. -/
def BRIGHT_RED : String := "#ff1744"

/-- Background color for cards/containers. -/
def CARD_BG : String := "#18141a"

/-- Muted red/grey for secondary text. -/
def TEXT_MUTED : String := "#e57373"

end theme

/-! ### The Counter component's event handlers (lib.rs lines 543-555)

Each handler is a closure taking a `MouseEvent` and updating the count signal;
we embed the signal update as explicit state passing: the handler maps the
pre-state of the counter to its post-state. -/

/-- Decrement handler: `move |_: MouseEvent| set_count.update(|c| *c -= 1)`. -/
def handle_decrement (_e : MouseEvent) (c : Int) : Int := wrap32 (c - 1)

/-- Increment handler: `move |_: MouseEvent| set_count.update(|c| *c += 1)`. -/
def handle_increment (_e : MouseEvent) (c : Int) : Int := wrap32 (c + 1)

/-- Reset handler: `move |_: MouseEvent| set_count.set(0)`. -/
def handle_reset (_e : MouseEvent) (_c : Int) : Int := 0

/-- Multiply handler: `move |_: MouseEvent| set_count.update(|c| *c *= 2)`. -/
def handle_multiply (_e : MouseEvent) (c : Int) : Int := wrap32 (c * 2)

/-- Divide handler: `move |_: MouseEvent| set_count.update(|c| *c /= 2)`;
Rust `i32` division truncates toward zero. -/
def handle_divide (_e : MouseEvent) (c : Int) : Int := Int.tdiv c 2

/-- Initial counter value, `signal(0)` (lib.rs line 529). -/
def counterInitial : Int := 0

/-- The five counter operations. -/
inductive CounterOp where
  | increment
  | decrement
  | reset
  | multiply
  | divide
deriving DecidableEq

/-- The pure mathematical state-transition function of each operation, on the
host's `i32` arithmetic: add one, subtract one, constant zero, double, halve
truncating toward zero. -/
def pureOp : CounterOp → Int → Int
  | .increment, v => wrap32 (v + 1)
  | .decrement, v => wrap32 (v - 1)
  | .reset, _ => 0
  | .multiply, v => wrap32 (v * 2)
  | .divide, v => Int.tdiv v 2

/-- Dispatch one operation through the Counter component's handler for it,
with the mouse event the browser delivered. -/
def runHandler : CounterOp → MouseEvent → Int → Int
  | .increment, e, v => handle_increment e v
  | .decrement, e, v => handle_decrement e v
  | .reset, e, v => handle_reset e v
  | .multiply, e, v => handle_multiply e v
  | .divide, e, v => handle_divide e v

/-- Execute a finite sequence of operations, each with its mouse event,
through the Counter component's handlers, threading the counter state. -/
def runHandlers : List (CounterOp × MouseEvent) → Int → Int
  | [], v => v
  | (op, e) :: rest, v => runHandlers rest (runHandler op e v)

/-- Pure functional composition of a sequence of operations applied to a
starting value. -/
def composeOps : List CounterOp → Int → Int
  | [], v => v
  | op :: rest, v => composeOps rest (pureOp op v)

/-- Each handler implements exactly the pure operation, regardless of the event. -/
theorem runHandler_eq_pureOp (op : CounterOp) (e : MouseEvent) (v : Int) :
    runHandler op e v = pureOp op v := by
  cases op <;> rfl

/-- C1: executing any finite sequence of the five operations through the
Counter component's handlers from state `v` equals the pure functional
composition of the corresponding operations applied to `v`; the handlers
touch no state besides the counter value. -/
theorem counter_handlers_are_pure_composition
    (ops : List (CounterOp × MouseEvent)) (v : Int) :
    runHandlers ops v = composeOps (ops.map Prod.fst) v := by
  induction ops generalizing v with
  | nil => rfl
  | cons p rest ih =>
      obtain ⟨op, e⟩ := p
      simp only [runHandlers, composeOps, List.map_cons, runHandler_eq_pureOp]
      exact ih (pureOp op v)

/-- C6: `reset` is the constant-zero operation, hence idempotent. -/
theorem reset_constant_idempotent (v : Int) :
    pureOp .reset v = 0 ∧ pureOp .reset (pureOp .reset v) = pureOp .reset v :=
  ⟨rfl, rfl⟩

/-- C8: the post-state of every handler depends only on the pre-state, never
on the contents of the mouse event (two-run noninterference). -/
theorem handlers_ignore_event
    (op : CounterOp) (e1 e2 : MouseEvent) (v : Int) :
    runHandler op e1 v = runHandler op e2 v := by
  cases op <;> rfl

/-- C3: the divide handler performs integer division by 2 truncating toward
zero: its magnitude is half the input's magnitude rounded down, its sign is
the input's sign; in particular divide(1) = 0, divide(-1) = 0, divide(4) = 2,
divide(5) = 2. -/
theorem divide_truncates_toward_zero :
    (∀ (e : MouseEvent) (v : Int),
      handle_divide e v = v.sign * ((v.natAbs / 2 : Nat) : Int))
    ∧ handle_divide testEvent 1 = 0
    ∧ handle_divide testEvent (-1) = 0
    ∧ handle_divide testEvent 4 = 2
    ∧ handle_divide testEvent 5 = 2 := by
  refine ⟨fun e v => ?_, by decide, by decide, by decide, by decide⟩
  show Int.tdiv v 2 = v.sign * ((v.natAbs / 2 : Nat) : Int)
  cases v with
  | ofNat n =>
      cases n with
      | zero => rfl
      | succ m => simp [Int.tdiv, Int.sign, Int.natAbs]
  | negSucc m => simp [Int.tdiv, Int.sign, Int.natAbs]

/-- C7: no operation checks bounds; the counter lives in 32-bit two's
complement, so increment at `i32::MAX` wraps to `i32::MIN`, decrement at
`i32::MIN` wraps to `i32::MAX`, and multiply is doubling modulo `2^32` mapped
back into the `i32` range - not unbounded integer arithmetic. -/
theorem counter_arithmetic_wraps_i32 :
    pureOp .increment i32Max = i32Min
    ∧ pureOp .decrement i32Min = i32Max
    ∧ (∀ v : Int, pureOp .multiply v % 4294967296 = (v * 2) % 4294967296
        ∧ i32Min ≤ pureOp .multiply v ∧ pureOp .multiply v ≤ i32Max)
    ∧ pureOp .increment i32Max ≠ i32Max + 1 := by
  refine ⟨by decide, by decide, fun v => ?_, by decide⟩
  simp only [pureOp, wrap32, i32Min, i32Max]
  omega

/-- C9: increment and decrement are mutual inverses on every `i32` value,
including at the wraparound boundaries. -/
theorem increment_decrement_inverse
    (v : Int) (h : i32Min ≤ v ∧ v ≤ i32Max) :
    pureOp .decrement (pureOp .increment v) = v
    ∧ pureOp .increment (pureOp .decrement v) = v := by
  simp only [pureOp, wrap32, i32Min, i32Max] at *
  omega

/-- Witness for C9 at the wraparound boundary `i32::MAX`. -/
theorem increment_decrement_inverse_witness :
    (i32Min ≤ (2147483647 : Int) ∧ (2147483647 : Int) ≤ i32Max)
    ∧ (pureOp .decrement (pureOp .increment 2147483647) = 2147483647
       ∧ pureOp .increment (pureOp .decrement 2147483647) = 2147483647) :=
  ⟨by decide, increment_decrement_inverse 2147483647 (by decide)⟩

/-! ### CounterDisplay (lib.rs lines 236-260)

The component renders the static text "Count: " followed by the value in a
span; the visible text of the paragraph is their concatenation. -/

/-- The text rendered by CounterDisplay for a counter value. -/
def counterDisplayText (v : Int) : String := "Count: " ++ toString v

/-! ### CounterMessage (lib.rs lines 331-390)

The classification closure computes a `(message, color)` pair from the
current value by an ordered if/else chain.  The two emoji prefixes in the
source file are stored there as mojibake (UTF-8 emoji bytes re-decoded
through a legacy encoding); the string literals below reproduce the file's
character sequences exactly. -/

/-- The `(message, color)` pair computed by CounterMessage for a value. -/
def counterMessage (current : Int) : String × String :=
  if current > 50 then
    ("üî• Count is HIGH! " ++ toString current
       ++ " is above 50!",
     theme.BRIGHT_RED)
  else if current < 0 then
    ("‚ùÑÔ∏è Count is NEGATIVE! "
       ++ toString current ++ " is below zero!",
     "#6bb6ff")
  else if current = 0 then
    ("üò¥ Count is ZERO! Reset complete!",
     theme.TEXT_MUTED)
  else
    ("Count is normal (1-49)", theme.TEXT_MUTED)

/-- C2: the CounterMessage classification is a total function choosing
exactly one of four mutually exclusive branches, in order: above 50 gives
the HIGH message with the value interpolated, negative gives the NEGATIVE
message with the value interpolated, zero gives the ZERO message, and
values 1 through 50 give "Count is normal (1-49)". -/
theorem counterMessage_classification (v : Int) :
    (50 < v →
      counterMessage v
        = ("üî• Count is HIGH! " ++ toString v
             ++ " is above 50!", theme.BRIGHT_RED))
    ∧ (v < 0 →
      counterMessage v
        = ("‚ùÑÔ∏è Count is NEGATIVE! "
             ++ toString v ++ " is below zero!", "#6bb6ff"))
    ∧ (v = 0 →
      counterMessage v
        = ("üò¥ Count is ZERO! Reset complete!",
           theme.TEXT_MUTED))
    ∧ (1 ≤ v → v ≤ 50 →
      counterMessage v = ("Count is normal (1-49)", theme.TEXT_MUTED))
    ∧ ((50 < v ∧ ¬v < 0 ∧ v ≠ 0 ∧ ¬(1 ≤ v ∧ v ≤ 50))
       ∨ (¬50 < v ∧ v < 0 ∧ v ≠ 0 ∧ ¬(1 ≤ v ∧ v ≤ 50))
       ∨ (¬50 < v ∧ ¬v < 0 ∧ v = 0 ∧ ¬(1 ≤ v ∧ v ≤ 50))
       ∨ (¬50 < v ∧ ¬v < 0 ∧ v ≠ 0 ∧ (1 ≤ v ∧ v ≤ 50))) := by
  refine ⟨fun h => ?_, fun h => ?_, fun h => ?_, fun h1 h2 => ?_, by omega⟩
  · unfold counterMessage
    rw [if_pos h]
  · unfold counterMessage
    rw [if_neg (by omega), if_pos h]
  · subst h
    rfl
  · unfold counterMessage
    rw [if_neg (by omega), if_neg (by omega), if_neg (by omega)]

/-- Witness for C2 at the boundary inputs 51, -1, 0 and 50. -/
theorem counterMessage_classification_witness :
    counterMessage 51
      = ("üî• Count is HIGH! 51 is above 50!",
         theme.BRIGHT_RED)
    ∧ counterMessage (-1)
      = ("‚ùÑÔ∏è Count is NEGATIVE! -1 is below zero!",
         "#6bb6ff")
    ∧ counterMessage 0
      = ("üò¥ Count is ZERO! Reset complete!",
         theme.TEXT_MUTED)
    ∧ counterMessage 50 = ("Count is normal (1-49)", theme.TEXT_MUTED) :=
  ⟨(counterMessage_classification 51).1 (by decide),
   (counterMessage_classification (-1)).2.1 (by decide),
   (counterMessage_classification 0).2.2.1 rfl,
   (counterMessage_classification 50).2.2.2.1 (by decide) (by decide)⟩

/-! ### CounterButtons (lib.rs lines 412-443) and its wiring (lines 594-600)

CounterButtons renders five EvilButton instances in fixed source order; the
Counter component passes it the five handlers.  We record, per button, the
rendered label and the state transition its wired handler performs. -/

/-- One rendered EvilButton: its label text and the counter-state transition
of the handler wired to it. -/
structure ButtonSpec where
  label : String
  handler : MouseEvent → Int → Int

/-- The five buttons rendered by CounterButtons in source order, each paired
with the handler Counter wires to it. -/
def counterButtons : List ButtonSpec :=
  [ ⟨"-1", handle_decrement⟩,
    ⟨"+1", handle_increment⟩,
    ⟨"Reset", handle_reset⟩,
    ⟨"*2", handle_multiply⟩,
    ⟨"/2", handle_divide⟩ ]

/-- C4 counterexample: the rendered labels are not
"-1", "+1", "Reset", "×2", "÷2" - the source writes the last two labels with
ASCII `*` and `/`, not the multiplication and division signs. -/
theorem counterButtons_label_counterexample :
    counterButtons.map ButtonSpec.label ≠ ["-1", "+1", "Reset", "×2", "÷2"] := by
  decide

/-- C4 amended: CounterButtons renders exactly five buttons labeled
"-1", "+1", "Reset", "*2", "/2" in that fixed order, wired respectively to
the decrement, increment, reset, multiply and divide handlers. -/
theorem counterButtons_labels_and_wiring :
    counterButtons.length = 5
    ∧ counterButtons.map ButtonSpec.label = ["-1", "+1", "Reset", "*2", "/2"]
    ∧ counterButtons.map ButtonSpec.handler
      = [handle_decrement, handle_increment, handle_reset,
         handle_multiply, handle_divide] :=
  ⟨rfl, by decide, rfl⟩

/-- C5: from the initial state 0, five clicks of "+1" through the increment
handler give value 5, CounterDisplay then renders "Count: 5", and
CounterMessage renders "Count is normal (1-49)". -/
theorem scenario_five_increments :
    runHandlers (List.replicate 5 (CounterOp.increment, testEvent))
      counterInitial = 5
    ∧ counterDisplayText 5 = "Count: 5"
    ∧ (counterMessage 5).1 = "Count is normal (1-49)" :=
  ⟨by decide, by decide, by decide⟩

/-! ### Landing component (src/components/landing.rs)

A Yew function component with no hooks and no state: it renders a fixed tree
and its button's onclick callback only emits a log line. -/

/-- A rendered HTML tree: text nodes and elements with attributes. -/
inductive Html where
  | text : String → Html
  | elem : String → List (String × String) → List Html → Html

/-- The tree rendered by the Landing component (landing.rs lines 6-14). -/
def landingView : Html :=
  .elem "div" [("class", "landing")]
    [ .elem "h1" [] [.text "Welcome to the website!"],
      .elem "p" [] [.text "This is a simple landing page."],
      .elem "button" [] [.text "Click Me!"] ]

/-- Rendering Landing: the component takes no props and owns no state, so a
render depends on nothing. -/
def landingRender (_ : Unit) : Html := landingView

/-- The onclick callback of Landing's button,
`Callback::from(|_| log::info!("Button clicked!"))`: over any ambient
application state it leaves the state unchanged and emits one log line. -/
def landingOnClick {σ : Type} (_e : MouseEvent) (s : σ) : σ × List String :=
  (s, ["Button clicked!"])

/-- C10: the Landing component is a constant view - every render yields the
same fixed tree of a heading, a paragraph and a button labeled "Click Me!" -
and clicking its button mutates no state, only emitting a log message. -/
theorem landing_constant_and_stateless :
    (∀ u1 u2 : Unit, landingRender u1 = landingRender u2)
    ∧ landingRender ()
      = .elem "div" [("class", "landing")]
          [ .elem "h1" [] [.text "Welcome to the website!"],
            .elem "p" [] [.text "This is a simple landing page."],
            .elem "button" [] [.text "Click Me!"] ]
    ∧ (∀ (σ : Type) (s : σ) (e : MouseEvent),
        (landingOnClick e s).1 = s
        ∧ (landingOnClick e s).2 = ["Button clicked!"]) :=
  ⟨fun _ _ => rfl, rfl, fun _ _ _ => ⟨rfl, rfl⟩⟩

end Webtest
